import Mathlib

/-!
Verification of the authenticator-validation stage
(`authentik/stages/authenticator_validate/stage.py`).

The stage orchestrates second-factor challenge negotiation: it enumerates a
user's devices into per-class challenges, enforces a recent-authentication
skip threshold, issues a userless WebAuthn challenge for passwordless flows,
gates submitted responses against the issued challenge set, and resolves the
not-configured policy (skip / deny / configure) when no device is usable.

External collaborators (the ORM, the cryptographic verifiers, the challenge
payload builders, the flow executor) are modelled as parameters: challenge
payloads are opaque `Nat` values, verifiers are function arguments, and the
executor outcomes (`stage_ok`, `stage_invalid`, rendering a challenge,
inserting a stage into the plan) are recorded in explicit outcome structures.
-/

deriving instance DecidableEq for Except

namespace AuthenticatorValidate

/-- The closed set of second-factor device classes
(`DeviceClasses` in `authentik/stages/authenticator_validate/models.py`,
as enumerated by the specification). -/
inductive DeviceClass
  | static
  | totp
  | webauthn
  | duo
  | sms
deriving DecidableEq, Repr

/-- The `last_t` attribute of a device: absent for devices that never store
usage, already a datetime, or a counter that is scaled by the device step
(the three branches of `get_device_last_usage`). -/
inductive LastT
  | stamp (t : Int)
  | counter (t : Int)
deriving DecidableEq, Repr

/-- A registered second-factor device.  The source classifies devices by
their runtime class name (`device.__class__.__name__.lower().replace("device", "")`);
here the classification result is the `cls` field.  `user` is the primary key
of the owning user. -/
structure Device where
  cls : DeviceClass
  pk : Int
  step : Int
  last_t : Option LastT
  user : Nat
deriving DecidableEq, Repr

/-- `get_device_last_usage`: epoch zero when the device has no `last_t`
attribute, the datetime itself when `last_t` already is one, and
`last_t * step` interpreted as an epoch timestamp otherwise. -/
def get_device_last_usage (d : Device) : Int :=
  match d.last_t with
  | none => 0
  | some (LastT.stamp t) => t
  | some (LastT.counter t) => t * d.step

/-- One issued device challenge: `{device_class, device_uid, challenge}`.
The payload is opaque at this level. -/
structure DeviceChallenge where
  device_class : DeviceClass
  device_uid : Int
  challenge : Nat
deriving DecidableEq, Repr

/-- The stage's not-configured policy. -/
inductive NotConfiguredAction
  | skip
  | deny
  | configure
deriving DecidableEq, Repr

/-- A configuration stage reference (only its primary key matters here). -/
structure Stage where
  pk : Nat
deriving DecidableEq, Repr

/-- The stage configuration (`AuthenticatorValidateStage` model fields that
the view reads).  `last_auth_threshold` is the duration in seconds that
`timedelta_from_string` parses from the configured string. -/
structure AuthenticatorValidateStage where
  device_classes : List DeviceClass
  last_auth_threshold : Int
  not_configured_action : NotConfiguredAction
  configuration_stages : List Stage
deriving DecidableEq, Repr

/-- Flow designations (`FlowDesignation` in `authentik/flows/models.py`). -/
inductive FlowDesignation
  | authentication
  | authorization
  | enrollment
  | invalidation
  | recovery
  | stage_configuration
  | unenrollment
deriving DecidableEq, Repr

/-- A user reference, as read from the flow plan context. -/
structure User where
  pk : Nat
  is_anonymous : Bool
deriving DecidableEq, Repr

/-- The session slice this stage owns: the issued challenge set, the candidate
configuration stages, and the selected configuration stage (stored by its
primary key). -/
structure Session where
  device_challenges : Option (List DeviceChallenge)
  stages : Option (List Stage)
  selected_stage : Option Nat
deriving DecidableEq, Repr

/-- `get_device_challenges`, inner loop.  `gcd` stands for the external
`get_challenge_for_device` payload builder; `allowed` is the stage allow-list,
`seen` the classes already seen (deduplication).  A device of an allowed,
unseen class whose last usage lies within a strictly positive threshold
raises `FlowSkipStageException`, modelled as `Except.error ()`.  The source
nests the two threshold conditions in two `if` statements; they are one
conjunction here. -/
def get_device_challenges_aux (gcd : Device → Nat) (allowed : List DeviceClass)
    (threshold _now : Int) :
    List Device → List DeviceClass → Except Unit (List DeviceChallenge)
  | [], _ => Except.ok []
  | d :: rest, seen =>
    if d.cls ∉ allowed then
      get_device_challenges_aux gcd allowed threshold _now rest seen
    else if d.cls ∈ seen then
      get_device_challenges_aux gcd allowed threshold _now rest seen
    else if threshold > 0 ∧ _now - get_device_last_usage d ≤ threshold then
      Except.error ()
    else
      match get_device_challenges_aux gcd allowed threshold _now rest (seen ++ [d.cls]) with
      | Except.error e => Except.error e
      | Except.ok cs => Except.ok (⟨d.cls, d.pk, gcd d⟩ :: cs)

/-- `AuthenticatorValidateStageView.get_device_challenges`: enumerate the
pending user's devices (passed in as `user_devices`, standing for
`devices_for_user`) into a challenge list, or signal that the whole stage is
to be skipped. -/
def get_device_challenges (gcd : Device → Nat) (stage : AuthenticatorValidateStage)
    (user_devices : List Device) (_now : Int) : Except Unit (List DeviceChallenge) :=
  get_device_challenges_aux gcd stage.device_classes stage.last_auth_threshold _now
    user_devices []

/-- `AuthenticatorValidateStageView.get_userless_webauthn_challenge`: the single
synthetic WebAuthn challenge with the sentinel device uid `-1`; `uch` is the
payload produced by the external `get_webauthn_challenge_userless`. -/
def get_userless_webauthn_challenge (uch : Nat) : List DeviceChallenge :=
  [⟨DeviceClass.webauthn, -1, uch⟩]

/-- The devices that survive the allow-list filter and the per-class
deduplication of `get_device_challenges`, ignoring the threshold check.
Used to state the skip characterisation. -/
def admitted_devices (allowed : List DeviceClass) :
    List Device → List DeviceClass → List Device
  | [], _ => []
  | d :: rest, seen =>
    if d.cls ∉ allowed then admitted_devices allowed rest seen
    else if d.cls ∈ seen then admitted_devices allowed rest seen
    else d :: admitted_devices allowed rest (seen ++ [d.cls])

/-- Number of issued challenges of a given class. -/
def countClass (cs : List DeviceChallenge) (c : DeviceClass) : Nat :=
  (cs.filter (fun x => x.device_class = c)).length

/-- Audit events this stage can emit. -/
inductive EventKind
  | configuration_error
deriving DecidableEq, Repr

/-- How stage entry (`get`) hands control back to the flow executor. -/
inductive EntryResult
  | stage_ok
  | stage_invalid
  | render_challenge
deriving DecidableEq, Repr

/-- Everything observable about one entry request: the session slice after the
request, the audit events emitted, the stages inserted into the flow plan (by
primary key, in order), and the executor outcome. -/
structure EntryOutcome where
  sess : Session
  events : List EventKind
  plan_inserted : List Nat
  result : EntryResult
deriving DecidableEq, Repr

/-- `AuthenticatorValidateStageView.prepare_stages`: no configuration stage
bound is a configuration error (audit event, stage failure); exactly one is
auto-selected, inserted into the plan and the stage completes; several are
stored in the session for the user to choose from, and the challenge is
rendered. -/
def prepare_stages (stage : AuthenticatorValidateStage) (sess : Session) : EntryOutcome :=
  match stage.configuration_stages with
  | [] => ⟨sess, [EventKind.configuration_error], [], EntryResult.stage_invalid⟩
  | [s] => ⟨{ sess with selected_stage := some s.pk }, [], [s.pk], EntryResult.stage_ok⟩
  | _ => ⟨{ sess with stages := some stage.configuration_stages }, [], [],
      EntryResult.render_challenge⟩

/-- The tail of `AuthenticatorValidateStageView.get` after a challenge list
has been produced: store it in the session, apply the not-configured action
when it is empty, render it otherwise. -/
def stage_get_finish (stage : AuthenticatorValidateStage) (sess : Session)
    (challenges : List DeviceChallenge) : EntryOutcome :=
  let sess1 : Session := { sess with device_challenges := some challenges }
  if challenges.length < 1 then
    match stage.not_configured_action with
    | NotConfiguredAction.skip => ⟨sess1, [], [], EntryResult.stage_ok⟩
    | NotConfiguredAction.deny => ⟨sess1, [], [], EntryResult.stage_invalid⟩
    | NotConfiguredAction.configure => prepare_stages stage sess1
  else ⟨sess1, [], [], EntryResult.render_challenge⟩

/-- `AuthenticatorValidateStageView.get`: with a known, non-anonymous pending
user, enumerate the devices (a skip signal completes the stage immediately,
before any session write); with no pending user, only an authentication flow
whose allow-list contains WebAuthn proceeds, with the userless challenge. -/
def stage_get (gcd : Device → Nat) (uch : Nat) (designation : FlowDesignation)
    (stage : AuthenticatorValidateStage) (pending_user : Option User)
    (user_devices : List Device) (_now : Int) (sess : Session) : EntryOutcome :=
  let known : Bool :=
    match pending_user with
    | some u => !u.is_anonymous
    | none => false
  if known then
    match get_device_challenges gcd stage user_devices _now with
    | Except.error _ => ⟨sess, [], [], EntryResult.stage_ok⟩
    | Except.ok challenges => stage_get_finish stage sess challenges
  else
    if designation ≠ FlowDesignation.authentication then
      ⟨sess, [], [], EntryResult.stage_ok⟩
    else if DeviceClass.webauthn ∈ stage.device_classes then
      stage_get_finish stage sess (get_userless_webauthn_challenge uch)
    else ⟨sess, [], [], EntryResult.stage_ok⟩

/-- A WebAuthn device record, as resolved by the external WebAuthn verifier;
`user` is its owning user. -/
structure WebAuthnDevice where
  pk : Nat
  user : User
deriving DecidableEq, Repr

/-- The flow plan context slice this stage touches: the pending user and the
authentication-method annotations (`PLAN_CONTEXT_PENDING_USER`,
`PLAN_CONTEXT_METHOD`, `PLAN_CONTEXT_METHOD_ARGS`; the method args record the
device, its cleansing left to the external helpers). -/
structure FlowContext where
  pending_user : Option User
  method : Option String
  method_args : Option WebAuthnDevice
deriving DecidableEq, Repr

/-- `AuthenticatorValidationChallengeResponse._challenge_allowed`: at least one
issued challenge (read from the session) must carry a class in `classes`. -/
def challenge_allowed (issued : List DeviceChallenge) (classes : List DeviceClass) :
    Except String Unit :=
  if issued.any (fun x => classes.contains x.device_class) then Except.ok ()
  else Except.error "No compatible device class allowed"

/-- `validate_code`: gate on the code-based classes, then delegate to the
external `validate_challenge_code` verifier `cv`. -/
def validate_code (issued : List DeviceChallenge) (cv : String → Except String String)
    (code : String) : Except String String :=
  match challenge_allowed issued [DeviceClass.totp, DeviceClass.static, DeviceClass.sms] with
  | Except.error e => Except.error e
  | Except.ok _ => cv code

/-- `validate_webauthn`: gate on the WebAuthn class, then delegate to the
external `validate_challenge_webauthn` verifier `wv` (which resolves the
asserting device). -/
def validate_webauthn (issued : List DeviceChallenge)
    (wv : Nat → Except String WebAuthnDevice) (payload : Nat) :
    Except String WebAuthnDevice :=
  match challenge_allowed issued [DeviceClass.webauthn] with
  | Except.error e => Except.error e
  | Except.ok _ => wv payload

/-- `validate_duo`: gate on the Duo class, then delegate to the external
`validate_challenge_duo` verifier `dv`. -/
def validate_duo (issued : List DeviceChallenge) (dv : Int → Except String Int)
    (duo : Int) : Except String Int :=
  match challenge_allowed issued [DeviceClass.duo] with
  | Except.error e => Except.error e
  | Except.ok _ => dv duo

/-- `validate_selected_challenge`: the selected `(device_class, device_uid)`
pair must be among the issued challenges; an SMS selection additionally
resolves the concrete device (`sms_exists` stands for the ORM lookup, the
`select_challenge` side effect staying external). -/
def validate_selected_challenge (issued : List DeviceChallenge)
    (sms_exists : Int → Bool) (ch : DeviceChallenge) : Except String DeviceChallenge :=
  if issued.any (fun dc =>
      dc.device_class == ch.device_class && dc.device_uid == ch.device_uid) then
    if ch.device_class ≠ DeviceClass.sms then Except.ok ch
    else if sms_exists ch.device_uid then Except.ok ch
    else Except.error "invalid challenge selected"
  else Except.error "invalid challenge selected"

/-- `validate_selected_stage`: the submitted primary key must match a stage in
the session's most recently stored `stages` list (default empty); on success
it is recorded into the session's `selected_stage` slot. -/
def validate_selected_stage (sess : Session) (stage_pk : Nat) :
    Session × Except String Nat :=
  if (sess.stages.getD []).any (fun s => s.pk == stage_pk) then
    ({ sess with selected_stage := some stage_pk }, Except.ok stage_pk)
  else (sess, Except.error "Selected stage is invalid")

/-- The submitted response payload: any subset of
`{selected_challenge, selected_stage, code, webauthn, duo}` may be present.
WebAuthn assertions are opaque payloads before verification. -/
structure RespInput where
  selected_challenge : Option DeviceChallenge
  selected_stage : Option Nat
  code : Option String
  webauthn : Option Nat
  duo : Option Int
deriving DecidableEq, Repr

/-- The validated response data (`response.data` after `is_valid`): the
WebAuthn field now holds the device the verifier resolved. -/
structure RespAttrs where
  selected_challenge : Option DeviceChallenge
  selected_stage : Option Nat
  code : Option String
  webauthn : Option WebAuthnDevice
  duo : Option Int
deriving DecidableEq, Repr

/-- `AuthenticatorValidationChallengeResponse.validate`: the object-level
check that at least one of the proof fields `code`, `webauthn`, `duo` was
sent. -/
def response_validate (attrs : RespAttrs) : Except String RespAttrs :=
  if attrs.code.isNone ∧ attrs.webauthn.isNone ∧ attrs.duo.isNone then
    Except.error "Empty response"
  else Except.ok attrs

/-- The serializer's full validation run (`is_valid`), following the REST
framework semantics: every present field is run through its field validator —
`validate_selected_stage` records its session side effect even when another
field fails — and the object-level `validate` runs only when no field
erred.  The first component is the session after the run, the second the
verdict. -/
def run_validation (issued : List DeviceChallenge) (sms_exists : Int → Bool)
    (cv : String → Except String String) (wv : Nat → Except String WebAuthnDevice)
    (dv : Int → Except String Int) (sess : Session) (input : RespInput) :
    Session × Except String RespAttrs :=
  let scRes : Except String (Option DeviceChallenge) :=
    match input.selected_challenge with
    | none => Except.ok none
    | some ch => (validate_selected_challenge issued sms_exists ch).map some
  let ssStep : Session × Except String (Option Nat) :=
    match input.selected_stage with
    | none => (sess, Except.ok none)
    | some pk =>
      let r := validate_selected_stage sess pk
      (r.1, r.2.map some)
  let sess1 := ssStep.1
  let codeRes : Except String (Option String) :=
    match input.code with
    | none => Except.ok none
    | some c => (validate_code issued cv c).map some
  let waRes : Except String (Option WebAuthnDevice) :=
    match input.webauthn with
    | none => Except.ok none
    | some w => (validate_webauthn issued wv w).map some
  let duoRes : Except String (Option Int) :=
    match input.duo with
    | none => Except.ok none
    | some d => (validate_duo issued dv d).map some
  match scRes, ssStep.2, codeRes, waRes, duoRes with
  | Except.ok sc, Except.ok ss, Except.ok co, Except.ok wa, Except.ok du =>
    (sess1, response_validate ⟨sc, ss, co, wa, du⟩)
  | _, _, _, _, _ => (sess1, Except.error "field validation failed")

/-- How a response request hands control back to the executor: the stage
completes, or the current challenge is re-rendered (`challenge_invalid`). -/
inductive PostResult
  | stage_ok
  | rerender
deriving DecidableEq, Repr

/-- Everything observable about one response request. -/
structure PostOutcome where
  sess : Session
  ctx : FlowContext
  plan_inserted : List Nat
  result : PostResult
deriving DecidableEq, Repr

/-- `AuthenticatorValidateStageView.challenge_valid`: with a pending user the
stage simply completes; without one, a validated WebAuthn device establishes
its owner as the pending user and records the passwordless
authentication-method annotation, and the absence of a WebAuthn payload
leaves the context untouched. -/
def challenge_valid (ctx : FlowContext) (attrs : RespAttrs) : FlowContext × PostResult :=
  match ctx.pending_user with
  | some _ => (ctx, PostResult.stage_ok)
  | none =>
    match attrs.webauthn with
    | none => (ctx, PostResult.stage_ok)
    | some dev =>
      ({ ctx with
          pending_user := some dev.user
          method := some "auth_webauthn_pwl"
          method_args := some dev }, PostResult.stage_ok)

/-- `AuthenticatorValidateStageView.post`: run the parent post (validation,
then `challenge_valid` on success or a re-render of the challenge on
failure); afterwards, whenever the session holds a selected stage and the
not-configured action is `configure`, insert that stage into the plan and
complete the stage — overriding the parent result. -/
def stage_post (action : NotConfiguredAction) (issued : List DeviceChallenge)
    (sms_exists : Int → Bool) (cv : String → Except String String)
    (wv : Nat → Except String WebAuthnDevice) (dv : Int → Except String Int)
    (sess : Session) (ctx : FlowContext) (input : RespInput) : PostOutcome :=
  let run := run_validation issued sms_exists cv wv dv sess input
  let sess1 := run.1
  let base : FlowContext × PostResult :=
    match run.2 with
    | Except.error _ => (ctx, PostResult.rerender)
    | Except.ok attrs => challenge_valid ctx attrs
  match sess1.selected_stage, action with
  | some pk, NotConfiguredAction.configure =>
    ⟨sess1, base.1, [pk], PostResult.stage_ok⟩
  | _, _ => ⟨sess1, base.1, [], base.2⟩

/-- Unfolding `countClass` over a cons cell. -/
theorem countClass_cons (x : DeviceChallenge) (cs : List DeviceChallenge) (c : DeviceClass) :
    countClass (x :: cs) c =
      (if x.device_class = c then 1 + countClass cs c else countClass cs c) := by
  simp only [countClass, List.filter_cons]
  by_cases h : x.device_class = c
  · simp [h, Nat.add_comm]
  · simp [h]

/-- The enumeration loop never issues two challenges of one class: classes in
`seen` are never issued again, and any class is issued at most once. -/
theorem gdc_aux_count (gcd : Device → Nat) (allowed : List DeviceClass) (threshold _now : Int) :
    ∀ (devices : List Device) (seen : List DeviceClass) (cs : List DeviceChallenge),
      get_device_challenges_aux gcd allowed threshold _now devices seen = Except.ok cs →
      ∀ c : DeviceClass, (c ∈ seen → countClass cs c = 0) ∧ countClass cs c ≤ 1 := by
  intro devices
  induction devices with
  | nil =>
    intro seen cs h c
    simp [get_device_challenges_aux] at h
    subst h
    simp [countClass]
  | cons d rest ih =>
    intro seen cs h c
    rw [get_device_challenges_aux] at h
    split at h
    · exact ih seen cs h c
    · split at h
      next h2 => exact ih seen cs h c
      next h2 =>
        split at h
        · simp at h
        · split at h
          next e hr => simp at h
          next cs2 hr =>
            injection h with h
            subst h
            have ihc := ih _ cs2 hr
            constructor
            · intro hc
              have hne : d.cls ≠ c := fun he => h2 (he ▸ hc)
              rw [countClass_cons]
              simp only [hne, if_false]
              exact (ihc c).1 (by simp [hc])
            · rw [countClass_cons]
              by_cases hc : d.cls = c
              · simp only [hc, if_true]
                have h0 : countClass cs2 c = 0 := (ihc c).1 (by simp [hc])
                omega
              · simp only [hc, if_false]
                exact (ihc c).2

/-- When the enumeration loop signals a stage skip, the threshold is strictly
positive and some admitted device lies within it. -/
theorem gdc_aux_skip_sound (gcd : Device → Nat) (allowed : List DeviceClass)
    (threshold _now : Int) :
    ∀ (devices : List Device) (seen : List DeviceClass),
      get_device_challenges_aux gcd allowed threshold _now devices seen = Except.error () →
      threshold > 0 ∧ ∃ d ∈ admitted_devices allowed devices seen,
        _now - get_device_last_usage d ≤ threshold := by
  intro devices
  induction devices with
  | nil => intro seen h; simp [get_device_challenges_aux] at h
  | cons d rest ih =>
    intro seen h
    rw [get_device_challenges_aux] at h
    rw [admitted_devices]
    split at h
    next h1 => rw [if_pos h1]; exact ih seen h
    next h1 =>
      rw [if_neg h1]
      split at h
      next h2 => rw [if_pos h2]; exact ih seen h
      next h2 =>
        rw [if_neg h2]
        split at h
        next h3 =>
          exact ⟨h3.1, d, by simp, h3.2⟩
        next h3 =>
          split at h
          next e hr =>
            obtain ⟨ht, d2, hmem, hc⟩ := ih (seen ++ [d.cls]) hr
            exact ⟨ht, d2, by simp [hmem], hc⟩
          next cs2 hr => simp at h

/-- Conversely, a strictly positive threshold together with an admitted device
within it makes the enumeration loop signal a stage skip. -/
theorem gdc_aux_skip_complete (gcd : Device → Nat) (allowed : List DeviceClass)
    (threshold _now : Int) :
    ∀ (devices : List Device) (seen : List DeviceClass), threshold > 0 →
      (∃ d ∈ admitted_devices allowed devices seen,
        _now - get_device_last_usage d ≤ threshold) →
      get_device_challenges_aux gcd allowed threshold _now devices seen =
        Except.error () := by
  intro devices
  induction devices with
  | nil => intro seen ht h; simp [admitted_devices] at h
  | cons d rest ih =>
    intro seen ht h
    rw [admitted_devices] at h
    rw [get_device_challenges_aux]
    by_cases h1 : d.cls ∉ allowed
    · rw [if_pos h1] at h ⊢; exact ih seen ht h
    · rw [if_neg h1] at h ⊢
      by_cases h2 : d.cls ∈ seen
      · rw [if_pos h2] at h ⊢; exact ih seen ht h
      · rw [if_neg h2] at h ⊢
        obtain ⟨d2, hmem, hc⟩ := h
        simp only [List.mem_cons] at hmem
        rcases hmem with rfl | hmem
        · rw [if_pos ⟨ht, hc⟩]
        · by_cases h3 : threshold > 0 ∧ _now - get_device_last_usage d ≤ threshold
          · rw [if_pos h3]
          · rw [if_neg h3]
            rw [ih (seen ++ [d.cls]) ht ⟨d2, hmem, hc⟩]

/-- `challenge_allowed` rejects when no issued challenge carries one of the
given classes. -/
theorem challenge_allowed_error (issued : List DeviceChallenge) (classes : List DeviceClass)
    (h : ¬ ∃ dc ∈ issued, dc.device_class ∈ classes) :
    challenge_allowed issued classes = Except.error "No compatible device class allowed" := by
  rw [challenge_allowed, if_neg]
  simpa using h

/-- Claim C1: with no pending user, an authentication-designated flow and
WebAuthn in the allow-list, stage entry stores exactly one challenge, of
class `webauthn` with the sentinel uid `-1`, and renders it; and when the
response later carries a verified WebAuthn device while no pending user is
set, `challenge_valid` establishes the device owner as the pending user and
records the passwordless authentication-method annotation. -/
theorem userless_webauthn_bootstrap (gcd : Device → Nat) (uch : Nat)
    (stage : AuthenticatorValidateStage) (user_devices : List Device) (_now : Int)
    (sess : Session) (ctx : FlowContext) (attrs : RespAttrs) (dev : WebAuthnDevice)
    (hwa : DeviceClass.webauthn ∈ stage.device_classes) :
    ((stage_get gcd uch FlowDesignation.authentication stage none user_devices _now
        sess).sess.device_challenges = some [⟨DeviceClass.webauthn, -1, uch⟩] ∧
      (stage_get gcd uch FlowDesignation.authentication stage none user_devices _now
        sess).result = EntryResult.render_challenge) ∧
    (ctx.pending_user = none → attrs.webauthn = some dev →
      (challenge_valid ctx attrs).1.pending_user = some dev.user ∧
      (challenge_valid ctx attrs).1.method = some "auth_webauthn_pwl" ∧
      (challenge_valid ctx attrs).2 = PostResult.stage_ok) := by
  constructor
  · simp [stage_get, hwa, get_userless_webauthn_challenge, stage_get_finish]
  · intro hu hw
    simp [challenge_valid, hu, hw]

/-- Witness for C1 at a concrete passwordless setup. -/
theorem userless_webauthn_bootstrap_witness :
    (stage_get (fun _ => 0) 42 FlowDesignation.authentication
        ⟨[DeviceClass.webauthn], 0, NotConfiguredAction.skip, []⟩ none [] 0
        ⟨none, none, none⟩).sess.device_challenges =
      some [⟨DeviceClass.webauthn, -1, 42⟩] ∧
    (challenge_valid ⟨none, none, none⟩
        ⟨none, none, none, some ⟨9, ⟨7, false⟩⟩, none⟩).1.pending_user =
      some ⟨7, false⟩ := by
  have h := userless_webauthn_bootstrap (fun _ => 0) 42
    ⟨[DeviceClass.webauthn], 0, NotConfiguredAction.skip, []⟩ [] 0 ⟨none, none, none⟩
    ⟨none, none, none⟩ ⟨none, none, none, some ⟨9, ⟨7, false⟩⟩, none⟩ ⟨9, ⟨7, false⟩⟩
    (by decide)
  exact ⟨h.1.1, (h.2 rfl rfl).1⟩

/-- Claim C2: a submitted proof field whose classes are absent from the
issued challenge set is rejected with the class-gate validation error, for
every possible verifier — the per-class verifier is never consulted: a code
needs an issued totp, static or sms challenge, a WebAuthn assertion an issued
webauthn challenge, and a Duo acknowledgment an issued duo challenge. -/
theorem response_class_gating (issued : List DeviceChallenge) :
    ((¬ ∃ dc ∈ issued, dc.device_class ∈
        [DeviceClass.totp, DeviceClass.static, DeviceClass.sms]) →
      ∀ (cv : String → Except String String) (code : String),
        validate_code issued cv code =
          Except.error "No compatible device class allowed") ∧
    ((¬ ∃ dc ∈ issued, dc.device_class ∈ [DeviceClass.webauthn]) →
      ∀ (wv : Nat → Except String WebAuthnDevice) (p : Nat),
        validate_webauthn issued wv p =
          Except.error "No compatible device class allowed") ∧
    ((¬ ∃ dc ∈ issued, dc.device_class ∈ [DeviceClass.duo]) →
      ∀ (dv : Int → Except String Int) (d : Int),
        validate_duo issued dv d =
          Except.error "No compatible device class allowed") := by
  refine ⟨fun h cv code => ?_, fun h wv p => ?_, fun h dv d => ?_⟩
  · rw [validate_code, challenge_allowed_error issued _ h]
  · rw [validate_webauthn, challenge_allowed_error issued _ h]
  · rw [validate_duo, challenge_allowed_error issued _ h]

/-- Witness for C2: a code sent against a webauthn-only challenge set is
rejected even under an always-accepting verifier. -/
theorem response_class_gating_witness :
    validate_code [⟨DeviceClass.webauthn, -1, 0⟩] (fun c => Except.ok c) "123456" =
      Except.error "No compatible device class allowed" :=
  (response_class_gating [⟨DeviceClass.webauthn, -1, 0⟩]).1 (by decide)
    (fun c => Except.ok c) "123456"

/-- Claim C3: one enumeration issues at most one challenge per device class,
and the userless synthetic challenge list trivially satisfies the same
bound. -/
theorem challenge_dedup_invariant (gcd : Device → Nat) (stage : AuthenticatorValidateStage)
    (user_devices : List Device) (_now : Int) (cs : List DeviceChallenge)
    (h : get_device_challenges gcd stage user_devices _now = Except.ok cs) :
    (∀ c : DeviceClass, countClass cs c ≤ 1) ∧
    (∀ (uch : Nat) (c : DeviceClass),
      countClass (get_userless_webauthn_challenge uch) c ≤ 1) := by
  constructor
  · intro c
    exact (gdc_aux_count gcd stage.device_classes stage.last_auth_threshold _now
      user_devices [] cs h c).2
  · intro uch c
    rw [get_userless_webauthn_challenge, countClass_cons]
    split <;> simp [countClass]

/-- Witness for C3: a user with two TOTP devices and one WebAuthn device gets
exactly one totp and exactly one webauthn entry. -/
theorem challenge_dedup_invariant_witness :
    get_device_challenges (fun _ => 0)
        ⟨[DeviceClass.static, DeviceClass.totp, DeviceClass.webauthn, DeviceClass.duo,
          DeviceClass.sms], 0, NotConfiguredAction.configure, []⟩
        [⟨DeviceClass.totp, 1, 30, none, 7⟩, ⟨DeviceClass.totp, 2, 30, none, 7⟩,
          ⟨DeviceClass.webauthn, 3, 1, none, 7⟩] 100 =
      Except.ok [⟨DeviceClass.totp, 1, 0⟩, ⟨DeviceClass.webauthn, 3, 0⟩] ∧
    countClass [⟨DeviceClass.totp, 1, 0⟩, ⟨DeviceClass.webauthn, 3, 0⟩] DeviceClass.totp = 1 ∧
    countClass [⟨DeviceClass.totp, 1, 0⟩, ⟨DeviceClass.webauthn, 3, 0⟩]
      DeviceClass.webauthn = 1 ∧
    countClass [⟨DeviceClass.totp, 1, 0⟩, ⟨DeviceClass.webauthn, 3, 0⟩] DeviceClass.totp ≤ 1 ∧
    countClass [⟨DeviceClass.totp, 1, 0⟩, ⟨DeviceClass.webauthn, 3, 0⟩]
      DeviceClass.webauthn ≤ 1 :=
  ⟨by decide, by decide, by decide,
    (challenge_dedup_invariant (fun _ => 0)
      ⟨[DeviceClass.static, DeviceClass.totp, DeviceClass.webauthn, DeviceClass.duo,
        DeviceClass.sms], 0, NotConfiguredAction.configure, []⟩
      [⟨DeviceClass.totp, 1, 30, none, 7⟩, ⟨DeviceClass.totp, 2, 30, none, 7⟩,
        ⟨DeviceClass.webauthn, 3, 1, none, 7⟩] 100
      [⟨DeviceClass.totp, 1, 0⟩, ⟨DeviceClass.webauthn, 3, 0⟩]
      (by decide)).1 DeviceClass.totp,
    (challenge_dedup_invariant (fun _ => 0)
      ⟨[DeviceClass.static, DeviceClass.totp, DeviceClass.webauthn, DeviceClass.duo,
        DeviceClass.sms], 0, NotConfiguredAction.configure, []⟩
      [⟨DeviceClass.totp, 1, 30, none, 7⟩, ⟨DeviceClass.totp, 2, 30, none, 7⟩,
        ⟨DeviceClass.webauthn, 3, 1, none, 7⟩] 100
      [⟨DeviceClass.totp, 1, 0⟩, ⟨DeviceClass.webauthn, 3, 0⟩]
      (by decide)).1 DeviceClass.webauthn⟩

/-- Counterexample to C4 as stated: a user with two allowed WebAuthn devices
receives a single webauthn entry, not one per device — the enumeration
deduplicates WebAuthn like every other class. -/
theorem webauthn_dedup_counterexample :
    get_device_challenges (fun _ => 0)
        ⟨[DeviceClass.webauthn], 0, NotConfiguredAction.skip, []⟩
        [⟨DeviceClass.webauthn, 3, 1, none, 7⟩, ⟨DeviceClass.webauthn, 4, 1, none, 7⟩]
        100 =
      Except.ok [⟨DeviceClass.webauthn, 3, 0⟩] ∧
    countClass [⟨DeviceClass.webauthn, 3, 0⟩] DeviceClass.webauthn = 1 := by
  constructor <;> rfl

/-- Claim C4 as amended: WebAuthn devices are subject to the same
one-challenge-per-class deduplication as every other class. -/
theorem webauthn_challenges_deduplicated (gcd : Device → Nat)
    (stage : AuthenticatorValidateStage) (user_devices : List Device) (_now : Int)
    (cs : List DeviceChallenge)
    (h : get_device_challenges gcd stage user_devices _now = Except.ok cs) :
    countClass cs DeviceClass.webauthn ≤ 1 :=
  (gdc_aux_count gcd stage.device_classes stage.last_auth_threshold _now
    user_devices [] cs h DeviceClass.webauthn).2

/-- Witness for the amended C4. -/
theorem webauthn_challenges_deduplicated_witness :
    countClass [⟨DeviceClass.webauthn, 3, 0⟩] DeviceClass.webauthn ≤ 1 :=
  webauthn_challenges_deduplicated (fun _ => 0)
    ⟨[DeviceClass.webauthn], 0, NotConfiguredAction.skip, []⟩
    [⟨DeviceClass.webauthn, 3, 1, none, 7⟩, ⟨DeviceClass.webauthn, 4, 1, none, 7⟩] 100
    [⟨DeviceClass.webauthn, 3, 0⟩] (by decide)

/-- Claim C5: enumeration signals a whole-stage skip exactly when the
threshold is strictly positive and some admitted (allowed, non-deduplicated)
device was last used within it; a device without usage data counts as last
used at epoch zero; and at stage entry for a known user the skip signal makes
the stage complete successfully. -/
theorem threshold_skip_iff (gcd : Device → Nat) (uch : Nat)
    (designation : FlowDesignation) (stage : AuthenticatorValidateStage) (u : User)
    (user_devices : List Device) (_now : Int) (sess : Session) :
    (get_device_challenges gcd stage user_devices _now = Except.error () ↔
      stage.last_auth_threshold > 0 ∧
        ∃ d ∈ admitted_devices stage.device_classes user_devices [],
          _now - get_device_last_usage d ≤ stage.last_auth_threshold) ∧
    (∀ d : Device, d.last_t = none → get_device_last_usage d = 0) ∧
    (u.is_anonymous = false →
      get_device_challenges gcd stage user_devices _now = Except.error () →
      (stage_get gcd uch designation stage (some u) user_devices _now sess).result =
        EntryResult.stage_ok) := by
  refine ⟨⟨fun h => gdc_aux_skip_sound gcd stage.device_classes stage.last_auth_threshold
      _now user_devices [] h,
    fun h => gdc_aux_skip_complete gcd stage.device_classes stage.last_auth_threshold
      _now user_devices [] h.1 h.2⟩, ?_, ?_⟩
  · intro d hd
    simp [get_device_last_usage, hd]
  · intro hu h
    simp [stage_get, hu, h]

/-- Witness for C5: a TOTP device last used 10 seconds ago against a
60-second threshold skips the stage. -/
theorem threshold_skip_iff_witness :
    get_device_challenges (fun _ => 0) ⟨[DeviceClass.totp], 60, NotConfiguredAction.deny, []⟩
        [⟨DeviceClass.totp, 1, 30, some (LastT.counter 3), 7⟩] 100 = Except.error () ∧
    (stage_get (fun _ => 0) 0 FlowDesignation.authentication
        ⟨[DeviceClass.totp], 60, NotConfiguredAction.deny, []⟩ (some ⟨7, false⟩)
        [⟨DeviceClass.totp, 1, 30, some (LastT.counter 3), 7⟩] 100
        ⟨none, none, none⟩).result = EntryResult.stage_ok := by
  have h := threshold_skip_iff (fun _ => 0) 0 FlowDesignation.authentication
    ⟨[DeviceClass.totp], 60, NotConfiguredAction.deny, []⟩ ⟨7, false⟩
    [⟨DeviceClass.totp, 1, 30, some (LastT.counter 3), 7⟩] 100 ⟨none, none, none⟩
  have hskip := h.1.mpr (by decide)
  exact ⟨hskip, h.2.2 rfl hskip⟩

/-- Claim C6: a submitted stage selection is accepted, and recorded into the
session, exactly when it matches a stage in the most recently stored
`stages` list; otherwise it is rejected. -/
theorem selected_stage_validity (sess : Session) (stage_pk : Nat) :
    ((∃ s ∈ sess.stages.getD [], s.pk = stage_pk) →
      validate_selected_stage sess stage_pk =
        ({ sess with selected_stage := some stage_pk }, Except.ok stage_pk)) ∧
    ((¬ ∃ s ∈ sess.stages.getD [], s.pk = stage_pk) →
      validate_selected_stage sess stage_pk =
        (sess, Except.error "Selected stage is invalid")) := by
  constructor
  · intro h
    rw [validate_selected_stage, if_pos]
    simpa using h
  · intro h
    rw [validate_selected_stage, if_neg]
    simpa using h

/-- Witness for C6: pk 5 in the stored stages is accepted and recorded; a pk
absent from the current stages set is rejected even though it was recorded as
selected earlier in the session. -/
theorem selected_stage_validity_witness :
    validate_selected_stage ⟨none, some [⟨5⟩], none⟩ 5 =
      (⟨none, some [⟨5⟩], some 5⟩, Except.ok 5) ∧
    validate_selected_stage ⟨none, some [⟨5⟩], some 5⟩ 6 =
      (⟨none, some [⟨5⟩], some 5⟩, Except.error "Selected stage is invalid") :=
  ⟨(selected_stage_validity ⟨none, some [⟨5⟩], none⟩ 5).1 (by decide),
   (selected_stage_validity ⟨none, some [⟨5⟩], some 5⟩ 6).2 (by decide)⟩

/-- Claim C7: with a known user, zero admitted challenges and the configure
action, zero bound configuration stages yield exactly one configuration-error
event and a failed stage, while exactly one bound configuration stage is
recorded as selected, inserted into the plan, and the stage completes without
a round-trip. -/
theorem configuration_resolution (gcd : Device → Nat) (uch : Nat)
    (designation : FlowDesignation) (stage : AuthenticatorValidateStage) (u : User)
    (user_devices : List Device) (_now : Int) (sess : Session)
    (hu : u.is_anonymous = false)
    (hch : get_device_challenges gcd stage user_devices _now = Except.ok [])
    (hact : stage.not_configured_action = NotConfiguredAction.configure) :
    (stage.configuration_stages = [] →
      (stage_get gcd uch designation stage (some u) user_devices _now sess).events =
        [EventKind.configuration_error] ∧
      (stage_get gcd uch designation stage (some u) user_devices _now sess).result =
        EntryResult.stage_invalid) ∧
    (∀ s : Stage, stage.configuration_stages = [s] →
      (stage_get gcd uch designation stage (some u) user_devices _now
          sess).sess.selected_stage = some s.pk ∧
      (stage_get gcd uch designation stage (some u) user_devices _now
          sess).plan_inserted = [s.pk] ∧
      (stage_get gcd uch designation stage (some u) user_devices _now sess).result =
        EntryResult.stage_ok) := by
  constructor
  · intro hcfg
    simp [stage_get, hu, hch, stage_get_finish, hact, prepare_stages, hcfg]
  · intro s hcfg
    simp [stage_get, hu, hch, stage_get_finish, hact, prepare_stages, hcfg]

/-- Witness for C7 at a concrete single-configuration-stage setup. -/
theorem configuration_resolution_witness :
    (stage_get (fun _ => 0) 0 FlowDesignation.authentication
        ⟨[DeviceClass.totp], 0, NotConfiguredAction.configure, [⟨5⟩]⟩ (some ⟨7, false⟩)
        [] 0 ⟨none, none, none⟩).sess.selected_stage = some 5 ∧
    (stage_get (fun _ => 0) 0 FlowDesignation.authentication
        ⟨[DeviceClass.totp], 0, NotConfiguredAction.configure, [⟨5⟩]⟩ (some ⟨7, false⟩)
        [] 0 ⟨none, none, none⟩).plan_inserted = [5] ∧
    (stage_get (fun _ => 0) 0 FlowDesignation.authentication
        ⟨[DeviceClass.totp], 0, NotConfiguredAction.configure, [⟨5⟩]⟩ (some ⟨7, false⟩)
        [] 0 ⟨none, none, none⟩).result = EntryResult.stage_ok := by
  have h := configuration_resolution (fun _ => 0) 0 FlowDesignation.authentication
    ⟨[DeviceClass.totp], 0, NotConfiguredAction.configure, [⟨5⟩]⟩ ⟨7, false⟩ [] 0
    ⟨none, none, none⟩ rfl rfl rfl
  exact h.2 ⟨5⟩ rfl

/-- Counterexample to C8 as stated: a response carrying only a valid
`selected_stage` and none of the proof fields does not pass validation — it
is rejected as an empty response (although the selection is still recorded in
the session by the field validator). -/
theorem pure_selection_rejected_counterexample :
    (run_validation [⟨DeviceClass.webauthn, -1, 0⟩] (fun _ => false)
        (fun c => Except.ok c) (fun _ => Except.error "x") (fun d => Except.ok d)
        ⟨some [⟨DeviceClass.webauthn, -1, 0⟩], some [⟨5⟩], none⟩
        ⟨none, some 5, none, none, none⟩).2 = Except.error "Empty response" ∧
    (run_validation [⟨DeviceClass.webauthn, -1, 0⟩] (fun _ => false)
        (fun c => Except.ok c) (fun _ => Except.error "x") (fun d => Except.ok d)
        ⟨some [⟨DeviceClass.webauthn, -1, 0⟩], some [⟨5⟩], none⟩
        ⟨none, some 5, none, none, none⟩).1.selected_stage = some 5 :=
  ⟨rfl, rfl⟩

/-- Claim C8 as amended: a submission with none of the proof fields `code`,
`webauthn`, `duo` never passes response validation — at least one proof field
is required in every submission, pure selection round-trips included. -/
theorem pure_selection_requires_proof_field (issued : List DeviceChallenge)
    (sms_exists : Int → Bool) (cv : String → Except String String)
    (wv : Nat → Except String WebAuthnDevice) (dv : Int → Except String Int)
    (sess : Session) (input : RespInput)
    (hc : input.code = none) (hw : input.webauthn = none) (hd : input.duo = none) :
    ∃ e, (run_validation issued sms_exists cv wv dv sess input).2 = Except.error e := by
  rcases input with ⟨sc, ss, co, wa, du⟩
  simp only at hc hw hd
  subst hc; subst hw; subst hd
  rw [run_validation]
  split
  next h1 h2 h3 h4 h5 =>
    injection h3 with h3
    injection h4 with h4
    injection h5 with h5
    subst h3; subst h4; subst h5
    exact ⟨"Empty response", by simp [response_validate]⟩
  next => exact ⟨"field validation failed", rfl⟩

/-- Witness for the amended C8. -/
theorem pure_selection_requires_proof_field_witness :
    ∃ e, (run_validation [] (fun _ => false) (fun c => Except.ok c)
        (fun _ => Except.error "x") (fun d => Except.ok d) ⟨none, some [⟨5⟩], none⟩
        ⟨none, some 5, none, none, none⟩).2 = Except.error e :=
  pure_selection_requires_proof_field [] (fun _ => false) (fun c => Except.ok c)
    (fun _ => Except.error "x") (fun d => Except.ok d) ⟨none, some [⟨5⟩], none⟩
    ⟨none, some 5, none, none, none⟩ rfl rfl rfl

/-- Counterexample to C9 as stated: a pure-selection response fails
validation, yet `post` inserts the selected configuration stage and completes
the stage instead of re-rendering. -/
theorem insertion_despite_invalid_counterexample :
    (run_validation [] (fun _ => false) (fun c => Except.ok c)
        (fun _ => Except.error "x") (fun d => Except.ok d) ⟨some [], some [⟨6⟩], none⟩
        ⟨none, some 6, none, none, none⟩).2 = Except.error "Empty response" ∧
    (stage_post NotConfiguredAction.configure [] (fun _ => false) (fun c => Except.ok c)
        (fun _ => Except.error "x") (fun d => Except.ok d) ⟨some [], some [⟨6⟩], none⟩
        ⟨none, none, none⟩ ⟨none, some 6, none, none, none⟩).result =
      PostResult.stage_ok ∧
    (stage_post NotConfiguredAction.configure [] (fun _ => false) (fun c => Except.ok c)
        (fun _ => Except.error "x") (fun d => Except.ok d) ⟨some [], some [⟨6⟩], none⟩
        ⟨none, none, none⟩ ⟨none, some 6, none, none, none⟩).plan_inserted = [6] :=
  ⟨rfl, rfl, rfl⟩

/-- Claim C9 as amended: `post` inserts a configuration stage into the plan
exactly when, after the validation run and its session side effects, the
session holds a selected stage and the not-configured action is `configure` —
irrespective of the validation verdict; and a response that fails validation
without such session state re-renders the current challenge. -/
theorem selected_stage_insertion_characterization (action : NotConfiguredAction)
    (issued : List DeviceChallenge) (sms_exists : Int → Bool)
    (cv : String → Except String String) (wv : Nat → Except String WebAuthnDevice)
    (dv : Int → Except String Int) (sess : Session) (ctx : FlowContext)
    (input : RespInput) :
    ((stage_post action issued sms_exists cv wv dv sess ctx input).plan_inserted ≠ [] ↔
      ((run_validation issued sms_exists cv wv dv sess input).1.selected_stage.isSome =
          true ∧
        action = NotConfiguredAction.configure)) ∧
    ((run_validation issued sms_exists cv wv dv sess input).1.selected_stage.isSome =
        true →
      action = NotConfiguredAction.configure →
      (stage_post action issued sms_exists cv wv dv sess ctx input).result =
        PostResult.stage_ok) ∧
    ((∃ e, (run_validation issued sms_exists cv wv dv sess input).2 = Except.error e) →
      ¬((run_validation issued sms_exists cv wv dv sess input).1.selected_stage.isSome =
          true ∧
        action = NotConfiguredAction.configure) →
      (stage_post action issued sms_exists cv wv dv sess ctx input).result =
        PostResult.rerender) := by
  cases hss : (run_validation issued sms_exists cv wv dv sess input).1.selected_stage with
  | some pk =>
    cases action with
    | configure => simp [stage_post, hss]
    | skip =>
      refine ⟨by simp [stage_post, hss], by simp, ?_⟩
      rintro ⟨e, he⟩ hn
      simp [stage_post, hss, he]
    | deny =>
      refine ⟨by simp [stage_post, hss], by simp, ?_⟩
      rintro ⟨e, he⟩ hn
      simp [stage_post, hss, he]
  | none =>
    cases action with
    | configure =>
      refine ⟨by simp [stage_post, hss], by simp [hss], ?_⟩
      rintro ⟨e, he⟩ hn
      simp [stage_post, hss, he]
    | skip =>
      refine ⟨by simp [stage_post, hss], by simp [hss], ?_⟩
      rintro ⟨e, he⟩ hn
      simp [stage_post, hss, he]
    | deny =>
      refine ⟨by simp [stage_post, hss], by simp [hss], ?_⟩
      rintro ⟨e, he⟩ hn
      simp [stage_post, hss, he]

/-- Witness for the amended C9. -/
theorem selected_stage_insertion_characterization_witness :
    (stage_post NotConfiguredAction.configure [] (fun _ => false) (fun c => Except.ok c)
        (fun _ => Except.error "x") (fun d => Except.ok d) ⟨some [], some [⟨7⟩], none⟩
        ⟨none, none, none⟩ ⟨none, some 7, none, none, none⟩).result =
      PostResult.stage_ok := by
  have h := selected_stage_insertion_characterization NotConfiguredAction.configure []
    (fun _ => false) (fun c => Except.ok c) (fun _ => Except.error "x")
    (fun d => Except.ok d) ⟨some [], some [⟨7⟩], none⟩ ⟨none, none, none⟩
    ⟨none, some 7, none, none, none⟩
  exact h.2.1 rfl rfl

/-- Claim C10: with no pending user and no WebAuthn payload in the validated
response data, `challenge_valid` completes the stage successfully and leaves
the flow context untouched — no pending user is established and no
authentication-method annotation is recorded. -/
theorem no_user_no_webauthn_stage_ok (ctx : FlowContext) (attrs : RespAttrs)
    (hu : ctx.pending_user = none) (hw : attrs.webauthn = none) :
    challenge_valid ctx attrs = (ctx, PostResult.stage_ok) := by
  simp [challenge_valid, hu, hw]

/-- Witness for C10. -/
theorem no_user_no_webauthn_stage_ok_witness :
    challenge_valid ⟨none, none, none⟩ ⟨none, some 5, some "123", none, none⟩ =
      (⟨none, none, none⟩, PostResult.stage_ok) :=
  no_user_no_webauthn_stage_ok ⟨none, none, none⟩ ⟨none, some 5, some "123", none, none⟩
    rfl rfl

end AuthenticatorValidate
